import Mathlib

/-!
Shallow embedding of the blockchain attendance tracker (`script.js`).

The embedding follows the source closely:

* `Block.calculateHash` (source lines 39-44) computes
  `btoa(unescape(encodeURIComponent(index + previousHash + timestamp +
  JSON.stringify(data)))).substring(0, 64)`.  The composite
  `unescape ∘ encodeURIComponent` maps a JavaScript string to its UTF-8
  byte sequence, `btoa` base64-encodes those bytes, and `substring(0, 64)`
  keeps the first 64 characters.  We model strings as Lean `String`,
  UTF-8 encoding explicitly, and base64 on byte lists.
* Numbers occurring here (`index`, `Date.now()` timestamps) are
  non-negative integers well below 2^53, so JavaScript renders them in
  plain decimal exactly as `Nat` does; we model them as `Nat`.
* `JSON.stringify` of the payload object serializes the three fields in
  insertion order (`studentId`, `status`, `date`), escaping the string
  contents as JSON does.
-/

/-- UTF-8 encoding of a single Unicode code point, as a list of bytes
(each < 256).  This is what `unescape(encodeURIComponent(...))` produces
per character of the input string. -/
def utf8EncodeChar (c : Nat) : List Nat :=
  if c < 0x80 then [c]
  else if c < 0x800 then [0xC0 + c / 64, 0x80 + c % 64]
  else if c < 0x10000 then
    [0xE0 + c / 4096, 0x80 + (c / 64) % 64, 0x80 + c % 64]
  else
    [0xF0 + c / 262144, 0x80 + (c / 4096) % 64, 0x80 + (c / 64) % 64, 0x80 + c % 64]

/-- The UTF-8 byte sequence of a string. -/
def strUtf8 (s : String) : List Nat :=
  s.data.flatMap (fun c => utf8EncodeChar c.toNat)

/-- The base64 alphabet used by `btoa`. -/
def b64Alphabet : List Char :=
  "ABCDEFGHIJKLMNOPQRSTUVWXYZabcdefghijklmnopqrstuvwxyz0123456789+/".data

/-- The base64 digit for a 6-bit value. -/
def b64Char (n : Nat) : Char := b64Alphabet.getD n 'A'

/-- Base64 encoding of a byte list, exactly as `btoa` produces it
(including `=` padding). -/
def base64Encode : List Nat → List Char
  | [] => []
  | [a] => [b64Char (a / 4), b64Char (a % 4 * 16), '=', '=']
  | [a, b] => [b64Char (a / 4), b64Char (a % 4 * 16 + b / 16), b64Char (b % 16 * 4), '=']
  | a :: b :: c :: rest =>
    b64Char (a / 4) :: b64Char (a % 4 * 16 + b / 16) ::
      b64Char (b % 16 * 4 + c / 64) :: b64Char (c % 64) :: base64Encode rest

/-- Lower-case hexadecimal digit, used by JSON string escaping of control
characters. -/
def hexDigit (n : Nat) : Char := "0123456789abcdef".data.getD n '0'

/-- JSON escaping of one character, as `JSON.stringify` performs inside
string literals. -/
def jsonEscapeChar (c : Char) : List Char :=
  if c = '"' then ['\\', '"']
  else if c = '\\' then ['\\', '\\']
  else if c = '\x08' then ['\\', 'b']
  else if c = '\x09' then ['\\', 't']
  else if c = '\x0a' then ['\\', 'n']
  else if c = '\x0c' then ['\\', 'f']
  else if c = '\x0d' then ['\\', 'r']
  else if c.toNat < 32 then
    ['\\', 'u', '0', '0', hexDigit (c.toNat / 16), hexDigit (c.toNat % 16)]
  else [c]

/-- A JSON string literal (opening quote, escaped content, closing quote). -/
def jsonQuote (s : String) : List Char :=
  '"' :: s.data.flatMap jsonEscapeChar ++ ['"']

/-- The payload object stored in a block:
`{ studentId: ..., status: ..., date: ... }` (source line 29 comment and
lines 61, 251, 274). -/
structure BlockData where
  studentId : String
  status : String
  date : String
deriving DecidableEq, Repr

/-- `JSON.stringify` of a payload object: the three fields in insertion
order, each value a JSON string literal. -/
def jsonStringifyData (d : BlockData) : String :=
  String.mk ('{' :: jsonQuote "studentId" ++ ':' :: jsonQuote d.studentId ++
    ',' :: jsonQuote "status" ++ ':' :: jsonQuote d.status ++
    ',' :: jsonQuote "date" ++ ':' :: jsonQuote d.date ++ ['}'])

/-- The fingerprint function over the four field values (source lines
39-44): base64 of the UTF-8 bytes of
`String(index) ++ previousHash ++ String(timestamp) ++ JSON.stringify(data)`,
truncated to the first 64 characters. -/
def calculateHashFields (index : Nat) (previousHash : String) (timestamp : Nat)
    (data : BlockData) : String :=
  String.mk ((base64Encode (strUtf8
    (toString index ++ previousHash ++ toString timestamp ++
      jsonStringifyData data))).take 64)

/-- One block of the chain (source lines 25-45): `index`, `timestamp`,
`data`, `previousHash` and the stored `hash` field. -/
structure Block where
  index : Nat
  timestamp : Nat
  data : BlockData
  previousHash : String
  hash : String
deriving DecidableEq, Repr

/-- `calculateHash` as a method: recomputes the fingerprint from the
block's current field values (used by `isChainValid`, line 94). -/
def Block.calculateHash (b : Block) : String :=
  calculateHashFields b.index b.previousHash b.timestamp b.data

/-- The `Block` constructor (lines 26-32): stores the four fields and
computes `hash` from them. -/
def mkBlock (index : Nat) (timestamp : Nat) (data : BlockData)
    (previousHash : String) : Block :=
  { index := index, timestamp := timestamp, data := data,
    previousHash := previousHash,
    hash := calculateHashFields index previousHash timestamp data }

/-- The fixed genesis payload (source line 61). -/
def genesisData : BlockData :=
  { studentId := "N/A", status := "Genesis Block", date := "N/A" }

/-- `createGenesisBlock` (lines 60-62): `new Block(0, Date.now(), {...}, '0')`;
the current time is passed in explicitly. -/
def createGenesisBlock (now : Nat) : Block :=
  mkBlock 0 now genesisData "0"

/-- The contents of the durable store under the key
`attendanceBlockchain`.  `absent` models a missing key (`getItem`
returns `null`), `corrupt` models a stored string that `JSON.parse`
rejects, and `stored c` models a well-formed serialization of the block
list `c` (every field of every block round-trips through JSON). -/
inductive StorageState where
  | absent
  | corrupt
  | stored (chain : List Block)
deriving DecidableEq, Repr

/-- In-memory chain plus the durable store. -/
structure ChainState where
  chain : List Block
  storage : StorageState
deriving DecidableEq, Repr

/-- `saveChain` (lines 130-132): serialize the whole chain under the one
key. -/
def saveChain (chain : List Block) : StorageState :=
  StorageState.stored chain

/-- The per-block reconstruction done by `loadChain` (lines 118-122):
`new Block(index, timestamp, data, previousHash)` followed by
`block.hash = blockData.hash`, i.e. the stored hash is taken verbatim,
not recomputed. -/
def reconstructBlock (b : Block) : Block :=
  { mkBlock b.index b.timestamp b.data b.previousHash with hash := b.hash }

/-- `loadChain` (lines 113-125).  On a missing key it returns `null`
(here `none`); on a stored chain it reconstructs each block; on a
corrupt store `JSON.parse` throws, which propagates (here `Except.error`). -/
def loadChain : StorageState → Except Unit (Option (List Block))
  | StorageState.absent => Except.ok none
  | StorageState.corrupt => Except.error ()
  | StorageState.stored c => Except.ok (some (c.map reconstructBlock))

/-- The `Blockchain` constructor (lines 52-54):
`this.chain = this.loadChain() || [this.createGenesisBlock()]`.
Note that the constructor performs no `saveChain`: the store is left
exactly as it was.  A thrown parse error propagates out. -/
def blockchainInit (s : StorageState) (now : Nat) : Except Unit ChainState :=
  match loadChain s with
  | Except.error e => Except.error e
  | Except.ok none => Except.ok { chain := [createGenesisBlock now], storage := s }
  | Except.ok (some c) => Except.ok { chain := c, storage := s }

/-- The state produced by constructing a `Blockchain` over an empty
store: a single genesis block, nothing written to storage. -/
def freshInit (now : Nat) : ChainState :=
  { chain := [createGenesisBlock now], storage := StorageState.absent }

/-- `getLatestBlock` (lines 68-70): `this.chain[this.chain.length - 1]`. -/
def getLatestBlock (chain : List Block) : Option Block :=
  chain.getLast?

/-- `addBlock` (lines 76-81): build a block on top of the latest one,
push it, save the chain.  The chain is never empty in any reachable
state; on an empty chain the original dereferences `undefined` and
throws, so that branch (returning the state unchanged) is never hit. -/
def addBlock (st : ChainState) (data : BlockData) (now : Nat) : ChainState :=
  match getLatestBlock st.chain with
  | none => st
  | some latest =>
    let newChain := st.chain ++ [mkBlock (latest.index + 1) now data latest.hash]
    { chain := newChain, storage := saveChain newChain }

/-- `isChainValid` (lines 88-106): for every i ≥ 1, check that block i's
stored hash equals its recomputed hash and that its `previousHash`
equals block i-1's stored hash; `true` when no check fails. -/
def isChainValid : List Block → Bool
  | [] => true
  | [_] => true
  | prev :: cur :: rest =>
    if cur.hash ≠ cur.calculateHash then false
    else if cur.previousHash ≠ prev.hash then false
    else isChainValid (cur :: rest)

/-- `clearChain` (lines 137-141): remove the stored key, reset the chain
to a fresh genesis block, save.  The net effect on the store is the
final `saveChain`. -/
def clearChain (st : ChainState) (now : Nat) : ChainState :=
  let c := [createGenesisBlock now]
  { chain := c, storage := saveChain c }

/-- Outcome reported to the user by the mark-present / mark-absent click
handlers. -/
inductive AttendanceResult where
  | invalidInput
  | alreadyMarked (existing : Block)
  | recorded
deriving DecidableEq, Repr

/-- The duplicate lookup of the click handlers (lines 242-244, 265-267):
`chain.find(block => block.data.date === today && block.data.studentId === studentId)`. -/
def findExisting (chain : List Block) (studentId today : String) : Option Block :=
  chain.find? fun b => b.data.date == today && b.data.studentId == studentId

/-- The common body of the `markPresentBtn` / `markAbsentBtn` click
handlers (lines 233-278), with `status` either `"present"` or
`"absent"`.  `studentId` is the already-trimmed input value, `today`
the current `YYYY-MM-DD` string and `now` the `Date.now()` used for the
new block.  An empty id is rejected before the chain is consulted; a
matching existing record rejects the append, reporting that record;
otherwise a block is appended (which also saves the chain). -/
def recordAttendance (st : ChainState) (studentId status today : String)
    (now : Nat) : AttendanceResult × ChainState :=
  if studentId = "" then (AttendanceResult.invalidInput, st)
  else
    match findExisting st.chain studentId today with
    | some existing => (AttendanceResult.alreadyMarked existing, st)
    | none =>
      (AttendanceResult.recorded,
        addBlock st { studentId := studentId, status := status, date := today } now)

/-- One public operation on the ledger: mark present, mark absent, or
clear all data. -/
inductive Op where
  | markPresent (studentId today : String) (now : Nat)
  | markAbsent (studentId today : String) (now : Nat)
  | clear (now : Nat)

/-- Apply one operation to the state (discarding the user-facing
result). -/
def applyOp (st : ChainState) : Op → ChainState
  | Op.markPresent sid today now => (recordAttendance st sid "present" today now).2
  | Op.markAbsent sid today now => (recordAttendance st sid "absent" today now).2
  | Op.clear now => clearChain st now

/-- Run a sequence of operations. -/
def runOps (st : ChainState) : List Op → ChainState
  | [] => st
  | op :: ops => runOps (applyOp st op) ops

/-- The three displayed eligibility states (lines 172-182): `N/A` when
there are no non-genesis records, otherwise eligible or not. -/
inductive EligibilityStatus where
  | na
  | eligible
  | notEligible
deriving DecidableEq, Repr

/-- The figures computed by `updateAttendanceSummary`. -/
structure Summary where
  totalDays : Nat
  presentDays : Nat
  absentDays : Nat
  attendancePercentage : Rat
  status : EligibilityStatus
deriving DecidableEq, Repr

/-- `updateAttendanceSummary` (lines 152-183) as a pure function of the
chain: drop the genesis block, count records and `status === 'present'`
records, compute the percentage and the displayed eligibility state.
JavaScript number arithmetic is modeled with exact rationals; at every
input referenced by a claim here (17/20 and 16/20) the IEEE-double
computation `presentDays / totalDays * 100` rounds to exactly the same
value (85 and 80 respectively), so the models agree there. -/
def updateAttendanceSummary (chain : List Block) : Summary :=
  let recs := chain.drop 1
  let totalDays := recs.length
  let presentDays := (recs.filter fun b => b.data.status == "present").length
  let absentDays := totalDays - presentDays
  let attendancePercentage : Rat :=
    if totalDays > 0 then (presentDays : Rat) / (totalDays : Rat) * 100 else 0
  let isEligible := attendancePercentage ≥ 85
  { totalDays := totalDays, presentDays := presentDays, absentDays := absentDays,
    attendancePercentage := attendancePercentage,
    status :=
      if totalDays = 0 then EligibilityStatus.na
      else if isEligible then EligibilityStatus.eligible
      else EligibilityStatus.notEligible }

/-- A concrete genesis block built at time 1. -/
def demoGenesis : Block := createGenesisBlock 1

/-- A concrete attendance block for student S1 appended at time 2. -/
def demoBlock1 : Block :=
  mkBlock 1 2 { studentId := "S1", status := "present", date := "2024-01-01" }
    demoGenesis.hash

/-- A concrete attendance block for student S2 appended at time 3. -/
def demoBlock2 : Block :=
  mkBlock 2 3 { studentId := "S2", status := "present", date := "2024-01-01" }
    demoBlock1.hash

/-- A concrete three-block chain obtained by two appends on a fresh
chain. -/
def demoChain : List Block := [demoGenesis, demoBlock1, demoBlock2]

/-- `demoChain` with the payload `status` field of the middle (index 1,
non-terminal) block flipped from `"present"` to `"absent"`, its stored
hash and every other block left untouched. -/
def demoTampered : List Block :=
  [demoGenesis,
    { demoBlock1 with
      data := { studentId := "S1", status := "absent", date := "2024-01-01" } },
    demoBlock2]

/-- A 64-character string standing for a predecessor fingerprint (every
fingerprint of a block whose hash input is at least 48 bytes long has
exactly 64 characters). -/
def ph64 : String := String.mk (List.replicate 64 'a')

/-- A raw chain-manager operation: `addBlock` or `clearChain` (the
spec's `append` and `reset`). -/
inductive ChainOp where
  | append (d : BlockData) (now : Nat)
  | reset (now : Nat)

/-- Apply one raw chain-manager operation. -/
def applyChainOp (st : ChainState) : ChainOp → ChainState
  | ChainOp.append d now => addBlock st d now
  | ChainOp.reset now => clearChain st now

/-- Run a sequence of raw chain-manager operations. -/
def runChainOps (st : ChainState) : List ChainOp → ChainState
  | [] => st
  | op :: ops => runChainOps (applyChainOp st op) ops

/-- Two blocks do not collide on the (subjectId, calendarDate) pair of
their payloads. -/
def distinctEntry (a b : Block) : Prop :=
  ¬(a.data.studentId = b.data.studentId ∧ a.data.date = b.data.date)

/-- A block fixture with an arbitrary stored hash, used to instantiate
universally quantified theorems. -/
def dupBlock : Block :=
  { index := 1, timestamp := 2,
    data := { studentId := "S1", status := "present", date := "2024-01-01" },
    previousHash := "prev", hash := "h" }

/-- A state fixture whose chain already contains `dupBlock`. -/
def dupState : ChainState :=
  { chain := [dupBlock], storage := StorageState.absent }

/-- A stand-in first (genesis) record for aggregation fixtures; the
aggregator never reads it. -/
def stubGenesis : Block :=
  { index := 0, timestamp := 0, data := genesisData, previousHash := "0", hash := "g" }

/-- A present-day record fixture for aggregation. -/
def presBlock : Block :=
  { index := 1, timestamp := 0,
    data := { studentId := "S", status := "present", date := "d" },
    previousHash := "p", hash := "h" }

/-- An absent-day record fixture for aggregation. -/
def absBlock : Block :=
  { index := 1, timestamp := 0,
    data := { studentId := "S", status := "absent", date := "d" },
    previousHash := "p", hash := "h" }

/-- A chain whose non-genesis part is 17 present and 3 absent records. -/
def chain17 : List Block :=
  stubGenesis :: (List.replicate 17 presBlock ++ List.replicate 3 absBlock)

/-- A chain whose non-genesis part is 16 present and 4 absent records. -/
def chain16 : List Block :=
  stubGenesis :: (List.replicate 16 presBlock ++ List.replicate 4 absBlock)

/-- Claim C1 (code bug): the fingerprint function is NOT sensitive to
every input field.  Two input tuples that agree on `index`,
`previousHash` (a 64-character fingerprint-length string) and
`timestamp` but differ in the payload produce the same output, and two
tuples that agree on `index`, `previousHash` and the payload but differ
in `timestamp` also produce the same output: `substring(0, 64)` of the
base64 encoding depends only on the first 48 input bytes, which
`String(index) ++ previousHash` already exhausts. -/
theorem calculateHash_ignores_data_and_timestamp :
    ((⟨"S1", "present", "2024-01-01"⟩ : BlockData) ≠ ⟨"S1", "absent", "2024-01-01"⟩) ∧
    calculateHashFields 1 ph64 5 ⟨"S1", "present", "2024-01-01"⟩ =
      calculateHashFields 1 ph64 5 ⟨"S1", "absent", "2024-01-01"⟩ ∧
    (5 : Nat) ≠ 99 ∧
    calculateHashFields 1 ph64 5 ⟨"S1", "present", "2024-01-01"⟩ =
      calculateHashFields 1 ph64 99 ⟨"S1", "present", "2024-01-01"⟩ := by
  refine ⟨by decide, by decide, by decide, by decide⟩

/-- Claim C2 (code bug): `demoChain` is a valid 3-record chain built by
two appends on a fresh chain; flipping the payload `status` of its
middle (non-terminal, index 1) record without touching any stored hash
leaves `isChainValid` returning `true` — the mutation is not detected
at all, because the recomputed fingerprint of a non-genesis block does
not depend on its payload. -/
theorem tampering_not_detected :
    demoChain =
      (addBlock
        (addBlock (freshInit 1) ⟨"S1", "present", "2024-01-01"⟩ 2)
        ⟨"S2", "present", "2024-01-01"⟩ 3).chain ∧
    isChainValid demoChain = true ∧
    2 ≤ demoChain.length ∧
    demoTampered.length = demoChain.length ∧
    demoTampered.map Block.hash = demoChain.map Block.hash ∧
    demoTampered ≠ demoChain ∧
    isChainValid demoTampered = true := by
  refine ⟨by decide, by decide, by decide, by decide, by decide, by decide, by decide⟩

/-- Claim C3 counterexample: on an unparseable store, initialization
raises (the `JSON.parse` error propagates out of the constructor), and
on an absent store the fresh one-record genesis chain is NOT persisted
(the store is left absent): the constructor never calls `saveChain`. -/
theorem init_claim_fails :
    blockchainInit StorageState.corrupt 1 = Except.error () ∧
    blockchainInit StorageState.absent 1 =
      Except.ok { chain := [createGenesisBlock 1], storage := StorageState.absent } :=
  ⟨rfl, rfl⟩

/-- Claim C3 (amended): if the persisted chain is absent, initialization
terminates normally with a chain of exactly one genesis record but does
not write to durable storage; if the persisted chain fails to parse,
initialization raises instead of falling back. -/
theorem init_amended (now : Nat) :
    blockchainInit StorageState.absent now =
      Except.ok { chain := [createGenesisBlock now], storage := StorageState.absent } ∧
    blockchainInit StorageState.corrupt now = Except.error () :=
  ⟨rfl, rfl⟩

/-- Claim C7: after `addBlock`, the latest block's index is the previous
latest block's index plus one, and its `previousHash` is the previous
latest block's `hash`. -/
theorem addBlock_monotone (st : ChainState) (data : BlockData) (now : Nat)
    (b : Block) (h : getLatestBlock st.chain = some b) :
    ∃ b', getLatestBlock (addBlock st data now).chain = some b' ∧
      b'.index = b.index + 1 ∧ b'.previousHash = b.hash := by
  have h' : st.chain.getLast? = some b := h
  refine ⟨mkBlock (b.index + 1) now data b.hash, ?_, rfl, rfl⟩
  simp [addBlock, getLatestBlock, h', List.getLast?_concat]

/-- Witness for claim C7 at a concrete input: appending to a fresh chain
whose latest block is its genesis block. -/
theorem addBlock_monotone_witness :
    ∃ b', getLatestBlock
        (addBlock (freshInit 1) ⟨"S1", "present", "2024-01-01"⟩ 2).chain = some b' ∧
      b'.index = (createGenesisBlock 1).index + 1 ∧
      b'.previousHash = (createGenesisBlock 1).hash :=
  addBlock_monotone (freshInit 1) ⟨"S1", "present", "2024-01-01"⟩ 2
    (createGenesisBlock 1) rfl

/-- Claim C9: after `clearChain` the in-memory chain is a single fresh
genesis record (index 0, previous fingerprint `"0"`, sentinel payload),
the store holds exactly that one-record chain, and a subsequent
`addBlock` produces exactly the state an `addBlock` on a freshly
initialized chain produces. -/
theorem clearChain_resets (st : ChainState) (now : Nat) (d : BlockData) (n2 : Nat) :
    (clearChain st now).chain = [createGenesisBlock now] ∧
    (createGenesisBlock now).index = 0 ∧
    (createGenesisBlock now).previousHash = "0" ∧
    (createGenesisBlock now).data = genesisData ∧
    (clearChain st now).storage = saveChain [createGenesisBlock now] ∧
    addBlock (clearChain st now) d n2 = addBlock (freshInit now) d n2 := by
  refine ⟨rfl, rfl, rfl, rfl, rfl, rfl⟩

/-- Stored-hash congruence of `isChainValid`: the validation loop reads
nothing of the head block except its stored `hash` field. -/
theorem isChainValid_congr_head (g g' : Block) (rest : List Block)
    (h : g.hash = g'.hash) :
    isChainValid (g :: rest) = isChainValid (g' :: rest) := by
  cases rest with
  | nil => rfl
  | cons cur rest' => simp [isChainValid, h]

/-- Claim C10: on a chain that validates, replacing the genesis record's
`data` and `timestamp` (keeping its stored `hash` and every other
record) still validates: validation starts at index 1 and never
recomputes the genesis record's fingerprint. -/
theorem genesis_tamper_undetected (g : Block) (rest : List Block)
    (d : BlockData) (t : Nat)
    (hvalid : isChainValid (g :: rest) = true) :
    isChainValid ({ g with data := d, timestamp := t } :: rest) = true := by
  rw [isChainValid_congr_head { g with data := d, timestamp := t } g rest rfl]
  exact hvalid

/-- Witness for claim C10 at a concrete input: forging the genesis
payload and timestamp of the valid `demoChain`. -/
theorem genesis_tamper_undetected_witness :
    isChainValid
      ({ demoGenesis with
          data := { studentId := "X", status := "forged", date := "2024-02-02" },
          timestamp := 42 } :: [demoBlock1, demoBlock2]) = true :=
  genesis_tamper_undetected demoGenesis [demoBlock1, demoBlock2]
    { studentId := "X", status := "forged", date := "2024-02-02" } 42 (by decide)

/-- Reconstruction takes the stored hash verbatim, so it restores a
block field-for-field. -/
theorem reconstructBlock_id (b : Block) : reconstructBlock b = b := rfl

/-- Loading any saved chain restores it field-for-field. -/
theorem loadChain_saveChain (c : List Block) :
    loadChain (saveChain c) = Except.ok (some c) := by
  have h : reconstructBlock = id := funext fun b => rfl
  simp [loadChain, saveChain, h]

/-- Claim C8: for every chain produced purely through `append` and
`reset` operations, loading the saved chain yields the chain unchanged,
every field (the stored hash verbatim included) preserved in order. -/
theorem load_save_roundtrip (n0 : Nat) (ops : List ChainOp) :
    loadChain (saveChain (runChainOps (freshInit n0) ops).chain) =
      Except.ok (some ((runChainOps (freshInit n0) ops).chain)) :=
  loadChain_saveChain _

/-- Claim C4: when a record for the requested (studentId, date) pair
already exists in the chain (and the id passes the non-empty input
check, which precedes the duplicate lookup), the operation is rejected:
the returned state is exactly the input state (same chain, same store,
no write), and the result carries an existing matching record of the
chain, whose payload (its `status` included) informs the caller. -/
theorem recordAttendance_rejects_duplicate (st : ChainState)
    (studentId status today : String) (now : Nat)
    (hsid : studentId ≠ "")
    (hex : ∃ b ∈ st.chain, b.data.studentId = studentId ∧ b.data.date = today) :
    ∃ b ∈ st.chain, b.data.studentId = studentId ∧ b.data.date = today ∧
      recordAttendance st studentId status today now =
        (AttendanceResult.alreadyMarked b, st) := by
  obtain ⟨b0, hb0, hsid0, hdate0⟩ := hex
  have hsome : (findExisting st.chain studentId today).isSome := by
    rw [findExisting, List.find?_isSome]
    exact ⟨b0, hb0, by simp [hsid0, hdate0]⟩
  obtain ⟨b, hfind⟩ := Option.isSome_iff_exists.mp hsome
  have hmem : b ∈ st.chain := List.mem_of_find?_eq_some hfind
  have hprop := List.find?_some hfind
  simp only [Bool.and_eq_true, beq_iff_eq] at hprop
  refine ⟨b, hmem, hprop.2, hprop.1, ?_⟩
  simp [recordAttendance, hsid, hfind]

/-- Witness for claim C4 at a concrete input: marking absent for a
(studentId, date) pair that `dupState`'s chain already records. -/
theorem recordAttendance_rejects_duplicate_witness :
    ∃ b ∈ dupState.chain, b.data.studentId = "S1" ∧ b.data.date = "2024-01-01" ∧
      recordAttendance dupState "S1" "absent" "2024-01-01" 9 =
        (AttendanceResult.alreadyMarked b, dupState) :=
  recordAttendance_rejects_duplicate dupState "S1" "absent" "2024-01-01" 9
    (by decide) ⟨dupBlock, by decide, by decide, by decide⟩

/-- Claim C6: the displayed eligibility state is `eligible` exactly when
there is at least one non-genesis record and the percentage is at least
85; a 20-record chain with 17 present records yields percentage 85 and
`eligible`; with 16 present records it yields percentage 80 and
`notEligible`; with no non-genesis records the percentage is 0 and the
state is `na` (distinct from `notEligible`). -/
theorem summary_boundary (chain : List Block) :
    ((updateAttendanceSummary chain).status = EligibilityStatus.eligible ↔
      (updateAttendanceSummary chain).totalDays > 0 ∧
        (updateAttendanceSummary chain).attendancePercentage ≥ 85) ∧
    ((updateAttendanceSummary chain).totalDays = 0 →
      (updateAttendanceSummary chain).attendancePercentage = 0 ∧
        (updateAttendanceSummary chain).status = EligibilityStatus.na) ∧
    ((updateAttendanceSummary chain).totalDays = 20 →
      (updateAttendanceSummary chain).presentDays = 17 →
      (updateAttendanceSummary chain).attendancePercentage = 85 ∧
        (updateAttendanceSummary chain).status = EligibilityStatus.eligible) ∧
    ((updateAttendanceSummary chain).totalDays = 20 →
      (updateAttendanceSummary chain).presentDays = 16 →
      (updateAttendanceSummary chain).attendancePercentage = 80 ∧
        (updateAttendanceSummary chain).status = EligibilityStatus.notEligible) := by
  simp only [updateAttendanceSummary]
  set total := (chain.drop 1).length with htot
  set present := ((chain.drop 1).filter fun b => b.data.status == "present").length
    with hpres
  by_cases h0 : total = 0
  · simp [h0]
  · have hpos : total > 0 := Nat.pos_of_ne_zero h0
    simp only [h0, if_false, hpos, if_true]
    refine ⟨?_, ?_, ?_, ?_⟩
    · by_cases he : (present : Rat) / (total : Rat) * 100 ≥ 85
      · simp [he, hpos]
      · simp [he]
    · exact fun h => h.elim
    · intro ht hp
      rw [ht, hp]
      norm_num
    · intro ht hp
      rw [ht, hp]
      norm_num

/-- Witness for claim C6 at concrete inputs: the 17-of-20, 16-of-20 and
empty aggregation fixtures. -/
theorem summary_boundary_witness :
    ((updateAttendanceSummary chain17).attendancePercentage = 85 ∧
      (updateAttendanceSummary chain17).status = EligibilityStatus.eligible) ∧
    ((updateAttendanceSummary chain16).attendancePercentage = 80 ∧
      (updateAttendanceSummary chain16).status = EligibilityStatus.notEligible) ∧
    ((updateAttendanceSummary [stubGenesis]).attendancePercentage = 0 ∧
      (updateAttendanceSummary [stubGenesis]).status = EligibilityStatus.na) :=
  ⟨(summary_boundary chain17).2.2.1 (by decide) (by decide),
   (summary_boundary chain16).2.2.2 (by decide) (by decide),
   (summary_boundary [stubGenesis]).2.1 (by decide)⟩

/-- The mark-attendance operation preserves pairwise distinctness of
(studentId, date) payload pairs over the whole chain: an append only
happens when the duplicate lookup found no matching record. -/
theorem pairwise_recordAttendance (st : ChainState) (sid status today : String)
    (now : Nat) (h : st.chain.Pairwise distinctEntry) :
    ((recordAttendance st sid status today now).2).chain.Pairwise distinctEntry := by
  unfold recordAttendance
  by_cases hsid : sid = ""
  · simpa [hsid] using h
  · simp only [hsid, if_false]
    cases hfind : findExisting st.chain sid today with
    | some b => simpa using h
    | none =>
      simp only
      unfold addBlock
      cases hlast : getLatestBlock st.chain with
      | none => simpa using h
      | some latest =>
        simp only
        rw [List.pairwise_append]
        refine ⟨h, List.pairwise_singleton .., ?_⟩
        intro a ha b hb
        rw [List.mem_singleton] at hb
        subst hb
        have hfind' : st.chain.find?
            (fun b => b.data.date == today && b.data.studentId == sid) = none := hfind
        have hnone := List.find?_eq_none.mp hfind' a ha
        simp only [Bool.and_eq_true, beq_iff_eq, not_and] at hnone
        intro hcol
        exact hnone hcol.2 hcol.1

/-- Every public operation preserves pairwise distinctness of
(studentId, date) payload pairs over the whole chain. -/
theorem pairwise_applyOp (st : ChainState) (op : Op)
    (h : st.chain.Pairwise distinctEntry) :
    (applyOp st op).chain.Pairwise distinctEntry := by
  cases op with
  | markPresent sid today now => exact pairwise_recordAttendance st sid "present" today now h
  | markAbsent sid today now => exact pairwise_recordAttendance st sid "absent" today now h
  | clear now => simp [applyOp, clearChain, distinctEntry]

/-- Running any operation sequence preserves the distinctness
invariant. -/
theorem pairwise_runOps (st : ChainState) (ops : List Op)
    (h : st.chain.Pairwise distinctEntry) :
    (runOps st ops).chain.Pairwise distinctEntry := by
  induction ops generalizing st with
  | nil => exact h
  | cons op ops ih => exact ih (applyOp st op) (pairwise_applyOp st op h)

/-- Claim C5: in every state reachable from a freshly initialized chain
by the public operations (mark present / mark absent with the duplicate
guard, clear), no two distinct non-genesis records agree on both the
payload studentId and the payload date. -/
theorem per_day_uniqueness (n0 : Nat) (ops : List Op) :
    ((runOps (freshInit n0) ops).chain.drop 1).Pairwise distinctEntry := by
  have h : (runOps (freshInit n0) ops).chain.Pairwise distinctEntry :=
    pairwise_runOps (freshInit n0) ops (by simp [freshInit])
  exact h.sublist (List.drop_sublist 1 _)
